import Mathlib

/-!
Shallow embedding of `src/common/cert_vfy.c` (pam_pkcs11).

The file models, faithfully to the C source on an LP64 platform
(`size_t` is 64 bits, `int` at least 32 bits):

* `base64_to_bin`  (lines 27-70)  — the hand-written base64 decoder;
* `download_crl`   (lines 72-124) — the CRL fetcher with PEM/DER framing
  detection;
* `verify_crl`     (lines 126-174) — the CRL verifier;
* `check_for_revocation` (lines 183-280) — the revocation policy engine;
* `verify_certificate`   (lines 282-363) — the chain validator.

External OpenSSL primitives (`get_from_uri`, `d2i_X509_CRL`,
`X509_STORE_get_by_subject`, `X509_get_pubkey`, `X509_CRL_verify`,
`X509_cmp_current_time`, `X509_verify_cert` and the store-setup calls)
are modelled as oracle fields of a context structure; byte buffers are
`List Nat` (each entry one byte); machine integers are `Nat`/`Int` with
the wrap-around of `size_t` made explicit where the C code relies on it.
Out-of-bounds reads (undefined behaviour in C) are modelled by a
distinguished `ub` outcome.  Observable side effects relevant to the
specification (URI fetches, DER-parse invocations, store lookups, entry
into the revocation check) are logged in an event trace.
-/

/-- `SIZE_MAX` on an LP64 platform: the value `(size_t)(-1)`. -/
def U64MAX : Nat := 18446744073709551615

/-- Result of the base64 decoder: `ub` marks an out-of-bounds read
(undefined behaviour in the C source), `err` the `return -1` path,
`ok out` a normal return of `out.length` with bytes `out` written. -/
inductive B64Res where
  | ub
  | err
  | ok (out : List Nat)
deriving DecidableEq

/-- The character classification chain of `base64_to_bin` (lines 37-49):
uppercase, lowercase, digits, `+`, `/` give a sextet value; `=` gives
value 0 and bumps the pad counter (second component `true`); every other
byte is skipped (`none`). -/
def sextetOf (ch : Nat) : Option (Nat × Bool) :=
  if 65 ≤ ch ∧ ch ≤ 90 then some (ch - 65, false)
  else if 97 ≤ ch ∧ ch ≤ 122 then some (ch - 97 + 26, false)
  else if 48 ≤ ch ∧ ch ≤ 57 then some (ch - 48 + 52, false)
  else if ch = 43 then some (62, false)
  else if ch = 47 then some (63, false)
  else if ch = 61 then some (0, true)
  else none

/-- The decode loop of `base64_to_bin` (lines 35-68).  `rest` is the
memory readable from the cursor onwards, `slen` the current value of the
`size_t` variable `str_len` (decremented with wrap-around at 0, so the
`--str_len < 0` guard of line 51 never fires), `i`/`vals`/`pad` the
in-progress four-sextet group, `len` the running output length checked
against the capacity `cap` before every write, `out` the bytes written
so far.  Reading past the end of memory is `ub`. -/
def b64go : List Nat → Nat → Nat → List Nat → Nat → Nat → Nat → List Nat → B64Res
  | [], _, _, _, _, _, _, _ => .ub
  | ch :: rs, slen, i, vals, pad, len, cap, out =>
    let s2 := if slen = 0 then U64MAX else slen - 1
    match sextetOf ch with
    | none => b64go rs s2 i vals pad len cap out
    | some (v, isp) =>
      let vals2 := vals ++ [v]
      let pad2 := if isp then pad + 1 else pad
      if i + 1 < 4 then b64go rs s2 (i + 1) vals2 pad2 len cap out
      else
        let v0 := vals2.getD 0 0
        let v1 := vals2.getD 1 0
        let v2 := vals2.getD 2 0
        let v3 := vals2.getD 3 0
        if cap < len + 1 then .err
        else
          let o1 := out ++ [(v0 * 4 + v1 / 16) % 256]
          if pad2 = 2 then .ok o1
          else if cap < len + 2 then .err
          else
            let o2 := o1 ++ [(v1 * 16 + v2 / 4) % 256]
            if pad2 = 1 then .ok o2
            else if cap < len + 3 then .err
            else
              let o3 := o2 ++ [(v2 * 64 + v3) % 256]
              if s2 ≤ 3 then .ok o3
              else b64go rs s2 0 [] pad2 (len + 3) cap o3

/-- `base64_to_bin(str, buf, buf_len)` (lines 27-70).  `mem` is the
memory readable from `str` onwards; `strlen` is the index of the first
zero byte (its absence makes `strlen` itself read out of bounds). -/
def base64_to_bin (mem : List Nat) (cap : Nat) : B64Res :=
  if 0 ∈ mem then
    let slen := mem.indexOf 0
    if slen ≤ 3 then .ok [] else b64go mem slen 0 [] 0 0 cap []
  else .ub

/-- Bytes of the literal `"-----BEGIN X509 CRL-----"` (24 characters). -/
def BEGINm : List Nat :=
  [45, 45, 45, 45, 45, 66, 69, 71, 73, 78, 32, 88, 53, 48, 57, 32,
   67, 82, 76, 45, 45, 45, 45, 45]

/-- Bytes of the literal `"-----END X509 CRL-----"` (22 characters). -/
def ENDm : List Nat :=
  [45, 45, 45, 45, 45, 69, 78, 68, 32, 88, 53, 48, 57, 32, 67, 82,
   76, 45, 45, 45, 45, 45]

/-- `strncmp(&data[k], mark, mark.length) == 0`: the markers contain no
zero byte, so this is plain byte-wise equality of `mark.length` bytes. -/
def matchAt (data mark : List Nat) (k : Nat) : Bool :=
  (data.drop k).take mark.length == mark

/-- The marker scan loops of `download_crl` (lines 86-93): try positions
`k, k+1, ...` for `n` rounds; on exhaustion the C loop variable has just
passed the bound. -/
def scanLoop (data mark : List Nat) (k : Nat) : Nat → Nat
  | 0 => k
  | n + 1 => if matchAt data mark k then k else scanLoop data mark (k + 1) n

/-- First position `≤ bound` where `mark` occurs in `data`, or `bound + 1`
when it does not occur: the exit value of the C `for` loops. -/
def scanIdx (data mark : List Nat) (bound : Nat) : Nat :=
  scanLoop data mark 0 (bound + 1)

/-- Revocation policy selector (`crl_policy_t` of `cert_vfy.h`). -/
inductive CrlPolicy where
  | CRLP_NONE
  | CRLP_ONLINE
  | CRLP_OFFLINE
  | CRLP_AUTO
deriving DecidableEq

/-- A parsed CRL: issuer name (names are abstract, modelled as `Nat`),
revoked serial numbers in list order, and a tag distinguishing distinct
CRL objects for the oracles. -/
structure CRL where
  tag : Nat
  issuer : Nat
  revoked : List Int
deriving DecidableEq

/-- A `GENERAL_NAME` inside a distribution point: its `type` field
(`GEN_URI` is 6) and, for URI names, the URI text. -/
structure GeneralName where
  typ : Int
  uri : String
deriving DecidableEq

/-- A `DIST_POINT`: `fullname = none` models `distpoint == NULL`,
`some none` a present `distpoint` whose `fullname` is `NULL`,
`some (some l)` a full-name general-name stack. -/
structure DistPoint where
  fullname : Option (Option (List GeneralName))
deriving DecidableEq

/-- An X.509 certificate as consumed by this core: issuer name, serial
number, and the CRL-distribution-points extension (`none` when
`X509_get_ext_d2i` returns `NULL`). -/
structure Cert where
  issuer : Nat
  serial : Int
  distPoints : Option (List DistPoint)
deriving DecidableEq

/-- Oracles for the external collaborators: URI fetch, DER parse of a
CRL, store lookups by subject name, public-key extraction, CRL signature
verification and the two `X509_cmp_current_time` comparisons. -/
structure Ctx where
  fetch : String → Option (List Nat)
  d2i : List Nat → Nat → Option CRL
  getCert : Nat → Option Cert
  getCrl : Nat → Option CRL
  getPubkey : Cert → Option Nat
  crlVerify : CRL → Nat → Int
  cmpLast : CRL → Int
  cmpNext : CRL → Int

/-- Observable events: entry into `check_for_revocation` with a policy,
a URI fetch, a `d2i_X509_CRL` invocation with its length argument, and
the two kinds of store lookups of the policy engine. -/
inductive Event where
  | revCheck (p : CrlPolicy)
  | fetch (uri : String)
  | d2iCall (len : Nat)
  | crlLookup (n : Nat)
  | certLookup (n : Nat)
deriving DecidableEq

/-- Result of `download_crl`: `ub` for undefined behaviour, `fail` for a
`NULL` return (fetch or parse failure), `ok` for a parsed CRL. -/
inductive DLRes where
  | ub
  | fail
  | ok (crl : CRL)
deriving DecidableEq

/-- `download_crl(uri)` (lines 72-124).  After a successful fetch the
buffer is scanned for the BEGIN/END markers (a buffer shorter than a
marker makes the unsigned `data_len - 24` bound wrap and the scan read
out of bounds).  In the PEM branch the byte at the END marker is zeroed
and the enclosed text decoded with capacity `j - i + 1`; the decoder's
`int` return is stored into the `size_t` variable `der_len`, so the
`der_len <= 0` guard of line 107 catches only the value 0 — a `-1`
failure wraps to `SIZE_MAX` and is passed on to `d2i_X509_CRL`, whose
read of `SIZE_MAX` bytes from the small decode buffer is out of bounds
(`ub`); the attempted call is still logged.  `malloc` is assumed to
succeed. -/
def download_crl (c : Ctx) (uri : String) : DLRes × List Event :=
  match c.fetch uri with
  | none => (.fail, [.fetch uri])
  | some data =>
    let n := data.length
    if n < 24 then (.ub, [.fetch uri])
    else
      let i := scanIdx data BEGINm (n - 24)
      let j := scanIdx data ENDm (n - 22)
      if i ≤ n - 24 ∧ j ≤ n - 22 ∧ i < j then
        let data2 := data.set j 0
        let mem := data2.drop (i + 24)
        match base64_to_bin mem (j - i + 1) with
        | .ub => (.ub, [.fetch uri])
        | .err => (.ub, [.fetch uri, .d2iCall U64MAX])
        | .ok out =>
          if out.length = 0 then (.fail, [.fetch uri])
          else
            match c.d2i out out.length with
            | none => (.fail, [.fetch uri, .d2iCall out.length])
            | some crl => (.ok crl, [.fetch uri, .d2iCall out.length])
      else
        match c.d2i data n with
        | none => (.fail, [.fetch uri, .d2iCall n])
        | some crl => (.ok crl, [.fetch uri, .d2iCall n])

/-- `verify_crl(crl, ctx)` (lines 126-174): resolve the CRL issuer's
certificate, extract its public key, verify the CRL signature, then
compare current time against the last-update and next-update fields.
Returns `-1` on a processing error, `0` on a clean negative verdict,
`1` when the CRL is valid. -/
def verify_crl (c : Ctx) (crl : CRL) : Int :=
  match c.getCert crl.issuer with
  | none => -1
  | some cert =>
    match c.getPubkey cert with
    | none => -1
    | some pk =>
      let rv := c.crlVerify crl pk
      if rv < 0 then -1
      else if rv = 0 then 0
      else
        let rl := c.cmpLast crl
        if rl = 0 then -1
        else if 0 < rl then 0
        else
          let rn := c.cmpNext crl
          if rn = 0 then -1
          else if rn < 0 then 0
          else 1

/-- `sk_X509_REVOKED_find`: index of the first entry with the given
serial number, `-1` when absent. -/
def sk_find (l : List Int) (s : Int) : Int :=
  if s ∈ l then ((l.indexOf s : Nat) : Int) else -1

/-- The shared tail of `check_for_revocation` (lines 266-279): verify
the CRL, then scan its revoked list for the certificate's serial number;
`return (rv == -1)` yields 1 exactly when the serial was not found. -/
def revocationTail (c : Ctx) (x : Cert) (crl : CRL) : Option Int :=
  let rv := verify_crl c crl
  if rv < 0 then some (-1)
  else if rv = 0 then some 0
  else if sk_find crl.revoked x.serial = -1 then some 1 else some 0

/-- Inner loop of the ONLINE branch (lines 239-254): try each general
name of a full-name stack; only `GEN_URI` (type 6) names are fetched;
the first successful download breaks the loop.  `some none` means the
stack is exhausted without a CRL; `none` propagates undefined behaviour
from `download_crl`. -/
def tryName (c : Ctx) : List GeneralName → Option (Option CRL) × List Event
  | [] => (some none, [])
  | gn :: rest =>
    if gn.typ = 6 then
      match download_crl c gn.uri with
      | (.ub, ev) => (none, ev)
      | (.ok crl, ev) => (some (some crl), ev)
      | (.fail, ev) =>
        let (r2, ev2) := tryName c rest
        (r2, ev ++ ev2)
    else tryName c rest

/-- Outer loop of the ONLINE branch (lines 235-256): walk the
distribution points while no CRL has been obtained; points without a
`distpoint` or without a `fullname` are skipped. -/
def tryPoints (c : Ctx) : List DistPoint → Option (Option CRL) × List Event
  | [] => (some none, [])
  | p :: rest =>
    match p.fullname with
    | some (some names) =>
      match tryName c names with
      | (none, ev) => (none, ev)
      | (some (some crl), ev) => (some (some crl), ev)
      | (some none, ev) =>
        let (r2, ev2) := tryPoints c rest
        (r2, ev ++ ev2)
    | _ => tryPoints c rest

/-- Distribution-point resolution of the ONLINE branch (lines 219-233):
take the extension from the leaf certificate; if absent, look up the
issuing CA certificate and take its extension; `none` when neither has
one (or the CA lookup fails). -/
def resolveDps (c : Ctx) (x : Cert) : Option (List DistPoint) × List Event :=
  match x.distPoints with
  | some dps => (some dps, [])
  | none =>
    match c.getCert x.issuer with
    | none => (none, [.certLookup x.issuer])
    | some ca =>
      match ca.distPoints with
      | none => (none, [.certLookup x.issuer])
      | some dps => (some dps, [.certLookup x.issuer])

/-- The OFFLINE branch (lines 206-215): look up a dedicated local CRL by
the leaf's issuer name; `-1` when none is found, otherwise run the
shared tail. -/
def revOffline (c : Ctx) (x : Cert) : Option Int × List Event :=
  match c.getCrl x.issuer with
  | none => (some (-1), [.crlLookup x.issuer])
  | some crl => (revocationTail c x crl, [.crlLookup x.issuer])

/-- The ONLINE branch (lines 216-261): resolve distribution points
(`-1` when there are none), try them in order (`-1` when every download
fails), then run the shared tail on the first parsed CRL. -/
def revOnline (c : Ctx) (x : Cert) : Option Int × List Event :=
  match resolveDps c x with
  | (none, ev) => (some (-1), ev)
  | (some dps, ev) =>
    match tryPoints c dps with
    | (none, ev2) => (none, ev ++ ev2)
    | (some none, ev2) => (some (-1), ev ++ ev2)
    | (some (some crl), ev2) => (revocationTail c x crl, ev ++ ev2)

/-- `check_for_revocation(x509, ctx, policy)` (lines 183-280).  NONE
returns 1 immediately; AUTO runs the ONLINE branch and falls back to the
OFFLINE branch exactly when ONLINE returned a negative value (the
recursive calls of the C code are inlined, each contributing its entry
event); returns `some r` for a normal return `r`, `none` for undefined
behaviour. -/
def check_for_revocation (c : Ctx) (x : Cert) : CrlPolicy → Option Int × List Event
  | .CRLP_NONE => (some 1, [.revCheck .CRLP_NONE])
  | .CRLP_OFFLINE =>
    let (r, ev) := revOffline c x
    (r, .revCheck .CRLP_OFFLINE :: ev)
  | .CRLP_ONLINE =>
    let (r, ev) := revOnline c x
    (r, .revCheck .CRLP_ONLINE :: ev)
  | .CRLP_AUTO =>
    let (r, ev) := revOnline c x
    let evA := Event.revCheck .CRLP_AUTO :: Event.revCheck .CRLP_ONLINE :: ev
    match r with
    | none => (none, evA)
    | some rv =>
      if rv < 0 then
        let (r2, ev2) := revOffline c x
        (r2, evA ++ (Event.revCheck .CRLP_OFFLINE :: ev2))
      else (some rv, evA)

/-- Oracles for the store-setup calls of `verify_certificate` (lines
290-337) and for `X509_verify_cert` (line 341). -/
structure SysCtx where
  storeNew : Bool
  addLookup : Bool
  addDirCaPem : Bool
  addDirCaAsn1 : Bool
  addDirCrlPem : Bool
  addDirCrlAsn1 : Bool
  ctxNew : Bool
  pathValidate : Cert → Int

/-- `verify_certificate(x509, ca_dir, crl_dir, policy)` (lines 282-363).
Each failed setup call returns `-1`; a path-validation result other than
1 returns 0 with the library's diagnostic string and without any
revocation check; otherwise the revocation result is returned, with a
negative value mapped to `-1`. -/
def verify_certificate (s : SysCtx) (c : Ctx) (x : Cert) (policy : CrlPolicy) :
    Option Int × List Event :=
  if !s.storeNew then (some (-1), [])
  else if !s.addLookup then (some (-1), [])
  else if !s.addDirCaPem then (some (-1), [])
  else if !s.addDirCaAsn1 then (some (-1), [])
  else if !s.addDirCrlPem then (some (-1), [])
  else if !s.addDirCrlAsn1 then (some (-1), [])
  else if !s.ctxNew then (some (-1), [])
  else if s.pathValidate x ≠ 1 then (some 0, [])
  else
    match check_for_revocation c x policy with
    | (none, ev) => (none, ev)
    | (some rv, ev) => (if rv < 0 then some (-1) else some rv, ev)

/-! ### Concrete instances used by counterexamples and witnesses -/

/-- Bytes of a string literal. -/
def strB (s : String) : List Nat := s.data.map Char.toNat

/-- A CRL with no revoked entries, issued by name 0. -/
def crl0 : CRL := ⟨0, 0, []⟩

/-- A CRL whose revoked-entry serials are 1, 2, 3. -/
def crlRev : CRL := ⟨1, 0, [1, 2, 3]⟩

/-- A CA certificate with subject/issuer name 0 and no extension. -/
def ca0 : Cert := ⟨0, 0, none⟩

/-- A leaf certificate issued by 0 with serial 2 and no
distribution-point extension. -/
def leaf0 : Cert := ⟨0, 2, none⟩

/-- A leaf certificate carrying one distribution point with a single
URI-typed general name. -/
def leafDp : Cert := { issuer := 0, serial := 2, distPoints := some [⟨some (some [⟨6, "u"⟩])⟩] }

/-- Baseline context: no network, empty CRL directory, a resolvable CA
whose key validates every CRL, fresh validity window. -/
def ctx0 : Ctx :=
  { fetch := fun _ => none
    d2i := fun _ _ => none
    getCert := fun _ => some ca0
    getCrl := fun _ => none
    getPubkey := fun _ => some 0
    crlVerify := fun _ _ => 1
    cmpLast := fun _ => -1
    cmpNext := fun _ => 1 }

/-- Context whose signature verifier cleanly rejects every CRL and whose
local store holds a CRL for issuer 0. -/
def ctxInv : Ctx := { ctx0 with crlVerify := fun _ _ => 0, getCrl := fun _ => some crl0 }

/-- Context whose fetch yields a 24-byte marker-free buffer and whose
DER parser accepts it. -/
def ctxOn : Ctx := { ctx0 with fetch := fun _ => some (List.replicate 24 0), d2i := fun _ _ => some crl0 }

/-- Context with a local CRL listing serials 1, 2, 3. -/
def ctxRevLocal : Ctx := { ctx0 with getCrl := fun _ => some crlRev }

/-- A fetched buffer in PEM framing whose enclosed text `A---` ends
mid-group: the decoder runs past the written NUL into the END marker and
the trailing `B` run until the capacity check fails with -1. -/
def data9 : List Nat := BEGINm ++ strB "A---" ++ ENDm ++ List.replicate 40 66

/-- Context fetching `data9`. -/
def ctx9 : Ctx := { ctx0 with fetch := fun _ => some data9 }

/-- A buffer with the END marker before the BEGIN marker. -/
def dataRev : List Nat := ENDm ++ BEGINm

/-- Context fetching `dataRev`, whose DER parser accepts any buffer. -/
def ctxRev : Ctx := { ctx0 with fetch := fun _ => some dataRev, d2i := fun _ _ => some crl0 }

/-- Context fetching a marker-free buffer the DER parser rejects. -/
def ctxNoMark : Ctx := { ctx0 with fetch := fun _ => some (List.replicate 24 0) }

/-- Context fetching a single-byte buffer, shorter than either marker. -/
def ctxShort : Ctx := { ctx0 with fetch := fun _ => some [48] }

/-- System context in which every setup call and path validation succeed. -/
def sysOk : SysCtx := ⟨true, true, true, true, true, true, true, fun _ => 1⟩

/-- System context in which setup succeeds and path validation fails. -/
def sysPathFail : SysCtx := { sysOk with pathValidate := fun _ => 0 }

/-! ### Helper lemmas -/

/-- `sk_X509_REVOKED_find` returns -1 exactly when the serial is absent. -/
theorem sk_find_eq_neg_one_iff (l : List Int) (s : Int) : sk_find l s = -1 ↔ s ∉ l := by
  unfold sk_find
  split
  case isTrue h =>
    constructor
    · intro hc
      have hnn : (0 : Int) ≤ ((l.indexOf s : Nat) : Int) := Int.natCast_nonneg _
      omega
    · intro hn
      exact absurd h hn
  case isFalse h =>
    simp [h]

/-! ### Theorems -/

/-- C5: once the verifier judges a CRL valid, the engine scans the
revoked list: a matching serial yields Revoked (0), no match yields
NotRevoked (1); lifted to the OFFLINE branch. -/
theorem serial_scan (c : Ctx) (x : Cert) (crl : CRL) (hv : verify_crl c crl = 1) :
    (x.serial ∈ crl.revoked → revocationTail c x crl = some 0) ∧
    (x.serial ∉ crl.revoked → revocationTail c x crl = some 1) ∧
    (c.getCrl x.issuer = some crl →
      (check_for_revocation c x .CRLP_OFFLINE).1 = revocationTail c x crl) := by
  refine ⟨?_, ?_, ?_⟩
  · intro hmem
    have hne : sk_find crl.revoked x.serial ≠ -1 := by
      rw [Ne, sk_find_eq_neg_one_iff]
      simpa using hmem
    simp [revocationTail, hv, hne]
  · intro hmem
    have he : sk_find crl.revoked x.serial = -1 := by
      rw [sk_find_eq_neg_one_iff]
      exact hmem
    simp [revocationTail, hv, he]
  · intro hcrl
    simp [check_for_revocation, revOffline, hcrl]

/-- Witness for `serial_scan`: a CRL with revoked serials 1, 2, 3 and a
certificate with serial 2 yields Revoked. -/
theorem serial_scan_witness : revocationTail ctxRevLocal leaf0 crlRev = some 0 :=
  (serial_scan ctxRevLocal leaf0 crlRev (by decide)).1 (by decide)

/-- C8: the CRL verifier is the ternary in-order short-circuiting chain:
unresolvable issuer or missing key is a processing error (-1); a
signature check that runs but does not validate is the clean negative 0;
a malformed update field is a processing error; a last-update in the
future or a next-update in the past is the clean negative 0; otherwise
the CRL is valid (1). -/
theorem crl_verifier_ternary (c : Ctx) (crl : CRL) :
    (c.getCert crl.issuer = none → verify_crl c crl = -1) ∧
    (∀ cert, c.getCert crl.issuer = some cert → c.getPubkey cert = none →
      verify_crl c crl = -1) ∧
    (∀ cert pk, c.getCert crl.issuer = some cert → c.getPubkey cert = some pk →
      c.crlVerify crl pk < 0 → verify_crl c crl = -1) ∧
    (∀ cert pk, c.getCert crl.issuer = some cert → c.getPubkey cert = some pk →
      c.crlVerify crl pk = 0 → verify_crl c crl = 0) ∧
    (∀ cert pk, c.getCert crl.issuer = some cert → c.getPubkey cert = some pk →
      0 < c.crlVerify crl pk → c.cmpLast crl = 0 → verify_crl c crl = -1) ∧
    (∀ cert pk, c.getCert crl.issuer = some cert → c.getPubkey cert = some pk →
      0 < c.crlVerify crl pk → 0 < c.cmpLast crl → verify_crl c crl = 0) ∧
    (∀ cert pk, c.getCert crl.issuer = some cert → c.getPubkey cert = some pk →
      0 < c.crlVerify crl pk → c.cmpLast crl < 0 → c.cmpNext crl = 0 →
      verify_crl c crl = -1) ∧
    (∀ cert pk, c.getCert crl.issuer = some cert → c.getPubkey cert = some pk →
      0 < c.crlVerify crl pk → c.cmpLast crl < 0 → c.cmpNext crl < 0 →
      verify_crl c crl = 0) ∧
    (∀ cert pk, c.getCert crl.issuer = some cert → c.getPubkey cert = some pk →
      0 < c.crlVerify crl pk → c.cmpLast crl < 0 → 0 < c.cmpNext crl →
      verify_crl c crl = 1) := by
  refine ⟨?_, ?_, ?_, ?_, ?_, ?_, ?_, ?_, ?_⟩ <;>
  · intros
    simp only [verify_crl, *]
    try rfl
    try (split_ifs <;> omega)

/-- Witness for `crl_verifier_ternary`: the all-checks-pass branch at a
concrete context gives a valid verdict. -/
theorem crl_verifier_ternary_witness : verify_crl ctx0 crl0 = 1 :=
  (crl_verifier_ternary ctx0 crl0).2.2.2.2.2.2.2.2 ca0 0 rfl rfl
    (by decide) (by decide) (by decide)

/-- C3: with policy NONE, after successful setup and path validation,
`verify_certificate` returns NotRevoked (1) and its trace contains
neither a fetch nor a CRL lookup. -/
theorem policy_none_no_io (s : SysCtx) (c : Ctx) (x : Cert)
    (h1 : s.storeNew = true) (h2 : s.addLookup = true) (h3 : s.addDirCaPem = true)
    (h4 : s.addDirCaAsn1 = true) (h5 : s.addDirCrlPem = true)
    (h6 : s.addDirCrlAsn1 = true) (h7 : s.ctxNew = true)
    (hp : s.pathValidate x = 1) :
    verify_certificate s c x .CRLP_NONE = (some 1, [.revCheck .CRLP_NONE]) ∧
    ∀ e ∈ (verify_certificate s c x .CRLP_NONE).2,
      (∀ u, e ≠ .fetch u) ∧ (∀ n, e ≠ .crlLookup n) := by
  have hmain : verify_certificate s c x .CRLP_NONE = (some 1, [.revCheck .CRLP_NONE]) := by
    simp [verify_certificate, h1, h2, h3, h4, h5, h6, h7, hp, check_for_revocation]
  refine ⟨hmain, ?_⟩
  rw [hmain]
  intro e he
  simp only [List.mem_singleton] at he
  subst he
  exact ⟨fun u => by simp, fun n => by simp⟩

/-- Witness for `policy_none_no_io`. -/
theorem policy_none_no_io_witness :
    verify_certificate sysOk ctx0 leaf0 .CRLP_NONE = (some 1, [.revCheck .CRLP_NONE]) :=
  (policy_none_no_io sysOk ctx0 leaf0 rfl rfl rfl rfl rfl rfl rfl rfl).1

/-- C4: the AUTO policy runs the ONLINE check; a clean verdict (0 or 1)
is returned with ONLINE's own trace (OFFLINE is never attempted); a
processing error (-1) triggers the OFFLINE check, whose result is
returned. -/
theorem auto_fallback (c : Ctx) (x : Cert) :
    (∀ rv ev, check_for_revocation c x .CRLP_ONLINE = (some rv, ev) → 0 ≤ rv →
      check_for_revocation c x .CRLP_AUTO = (some rv, .revCheck .CRLP_AUTO :: ev)) ∧
    (∀ rv ev, check_for_revocation c x .CRLP_ONLINE = (some rv, ev) → rv < 0 →
      check_for_revocation c x .CRLP_AUTO =
        ((check_for_revocation c x .CRLP_OFFLINE).1,
          .revCheck .CRLP_AUTO ::
            (ev ++ (check_for_revocation c x .CRLP_OFFLINE).2))) := by
  rcases hON : revOnline c x with ⟨r, e⟩
  rcases hOFF : revOffline c x with ⟨r2, e2⟩
  constructor
  · intro rv ev h hge
    have hinj : r = some rv ∧ Event.revCheck .CRLP_ONLINE :: e = ev := by
      have h2 := h
      simp only [check_for_revocation, hON, Prod.mk.injEq] at h2
      exact h2
    obtain ⟨hr1, hr2⟩ := hinj
    subst hr1
    subst hr2
    simp only [check_for_revocation, hON, hOFF]
    rw [if_neg (by omega)]
  · intro rv ev h hlt
    have hinj : r = some rv ∧ Event.revCheck .CRLP_ONLINE :: e = ev := by
      have h2 := h
      simp only [check_for_revocation, hON, Prod.mk.injEq] at h2
      exact h2
    obtain ⟨hr1, hr2⟩ := hinj
    subst hr1
    subst hr2
    simp only [check_for_revocation, hON, hOFF]
    rw [if_pos hlt]
    simp

/-- Witness for `auto_fallback`: a context whose ONLINE check reaches a
clean NotRevoked verdict makes AUTO return it with ONLINE's trace. -/
theorem auto_fallback_witness :
    check_for_revocation ctxOn leafDp .CRLP_AUTO =
      (some 1, [.revCheck .CRLP_AUTO, .revCheck .CRLP_ONLINE, .fetch "u", .d2iCall 24]) :=
  (auto_fallback ctxOn leafDp).1 1
    [.revCheck .CRLP_ONLINE, .fetch "u", .d2iCall 24] (by decide) (by decide)

/-- Counterexample for C1: a context whose signature verifier cleanly
rejects the locally stored CRL.  The verifier returns Invalid (0), and
the revocation check under OFFLINE returns the Revoked verdict 0 — not
the Indeterminate outcome -1 the claim requires. -/
theorem c1_counterexample :
    verify_crl ctxInv crl0 = 0 ∧
    check_for_revocation ctxInv leaf0 .CRLP_OFFLINE =
      (some 0, [.revCheck .CRLP_OFFLINE, .crlLookup 0]) ∧
    (some (0 : Int)) ≠ some (-1 : Int) := by decide

/-- C1 as amended: for each policy in {OFFLINE, ONLINE, AUTO}, when the
CRL verifier returns Invalid-or-expired (0) on the CRL that the
policy's acquisition stage obtained, the revocation check returns the
Revoked verdict 0 — not NotRevoked (1) and not the Indeterminate error
outcome -1.  For AUTO both acquisition routes are covered: a CRL
obtained by the ONLINE attempt, and a CRL obtained from the local store
after an ONLINE processing error; each conclusion fixes the full result
pair, trace included. -/
theorem invalid_crl_yields_revoked (c : Ctx) (x : Cert) :
    (∀ crl, c.getCrl x.issuer = some crl → verify_crl c crl = 0 →
      check_for_revocation c x .CRLP_OFFLINE =
        (some 0, [.revCheck .CRLP_OFFLINE, .crlLookup x.issuer])) ∧
    (∀ dps ev crl ev2, resolveDps c x = (some dps, ev) →
      tryPoints c dps = (some (some crl), ev2) → verify_crl c crl = 0 →
      check_for_revocation c x .CRLP_ONLINE =
        (some 0, .revCheck .CRLP_ONLINE :: (ev ++ ev2)) ∧
      check_for_revocation c x .CRLP_AUTO =
        (some 0, .revCheck .CRLP_AUTO :: .revCheck .CRLP_ONLINE :: (ev ++ ev2))) ∧
    (∀ rv ev, check_for_revocation c x .CRLP_ONLINE = (some rv, ev) → rv < 0 →
      ∀ crl, c.getCrl x.issuer = some crl → verify_crl c crl = 0 →
      check_for_revocation c x .CRLP_AUTO =
        (some 0, .revCheck .CRLP_AUTO ::
          (ev ++ [.revCheck .CRLP_OFFLINE, .crlLookup x.issuer]))) := by
  refine ⟨?_, ?_, ?_⟩
  · intro crl hcrl hv
    have htail : revocationTail c x crl = some 0 := by simp [revocationTail, hv]
    simp [check_for_revocation, revOffline, hcrl, htail]
  · intro dps ev crl ev2 hres htry hv
    have htail : revocationTail c x crl = some 0 := by simp [revocationTail, hv]
    have hON : revOnline c x = (some 0, ev ++ ev2) := by
      simp [revOnline, hres, htry, htail]
    constructor
    · simp [check_for_revocation, hON]
    · simp [check_for_revocation, hON]
  · intro rv ev hON hlt crl hcrl hv
    have htail : revocationTail c x crl = some 0 := by simp [revocationTail, hv]
    rcases h2 : revOnline c x with ⟨r, e⟩
    have hinj : r = some rv ∧ Event.revCheck .CRLP_ONLINE :: e = ev := by
      have h3 := hON
      simp only [check_for_revocation, h2, Prod.mk.injEq] at h3
      exact h3
    obtain ⟨hr1, hr2⟩ := hinj
    subst hr1
    subst hr2
    simp [check_for_revocation, h2, hlt, revOffline, hcrl, htail]

/-- Witness for `invalid_crl_yields_revoked`: the concrete context of
the counterexample satisfies the OFFLINE conjunct's hypotheses for its
stored CRL. -/
theorem invalid_crl_yields_revoked_witness :
    check_for_revocation ctxInv leaf0 .CRLP_OFFLINE =
      (some 0, [.revCheck .CRLP_OFFLINE, .crlLookup 0]) :=
  (invalid_crl_yields_revoked ctxInv leaf0).1 crl0 rfl (by decide)

/-- Counterexample for C2: with every setup call succeeding and path
validation failing, `verify_certificate` returns 0 — the value coding
the Revoked outcome — rather than the claimed Error value -1. -/
theorem c2_counterexample :
    sysPathFail.pathValidate leaf0 ≠ 1 ∧
    verify_certificate sysPathFail ctx0 leaf0 .CRLP_OFFLINE = (some 0, []) ∧
    (some (0 : Int)) ≠ some (-1 : Int) := by decide

/-- C2 as amended: on path-validation failure (after successful store
setup) `verify_certificate` returns 0 — the value otherwise coding
Revoked — with the library's diagnostic string, and the revocation check
is never invoked (the trace is empty, in particular it contains no
`revCheck` entry). -/
theorem path_failure_returns_zero (s : SysCtx) (c : Ctx) (x : Cert) (p : CrlPolicy)
    (h1 : s.storeNew = true) (h2 : s.addLookup = true) (h3 : s.addDirCaPem = true)
    (h4 : s.addDirCaAsn1 = true) (h5 : s.addDirCrlPem = true)
    (h6 : s.addDirCrlAsn1 = true) (h7 : s.ctxNew = true)
    (hp : s.pathValidate x ≠ 1) :
    verify_certificate s c x p = (some 0, []) := by
  simp [verify_certificate, h1, h2, h3, h4, h5, h6, h7, hp]

/-- Witness for `path_failure_returns_zero`. -/
theorem path_failure_returns_zero_witness :
    verify_certificate sysPathFail ctx0 leaf0 .CRLP_AUTO = (some 0, []) :=
  path_failure_returns_zero sysPathFail ctx0 leaf0 .CRLP_AUTO
    rfl rfl rfl rfl rfl rfl rfl (by decide)

/-- C6 (code bug): `!` (byte 33) is outside the base64 alphabet, yet the
decoder does not fail on `"!AAAA"`: the classification chain simply
skips the byte and the call returns 3 decoded bytes within capacity 3. -/
theorem b64_accepts_nonalphabet :
    sextetOf 33 = none ∧
    base64_to_bin [33, 65, 65, 65, 65, 0] 3 = .ok [0, 0, 0] := by decide

/-- C9 (code bug): on the PEM-framed buffer `data9` the decoder fails
with -1 (capacity exhausted after running past the written NUL), the
`size_t` conversion turns -1 into `SIZE_MAX`, the `der_len <= 0` guard
does not fire, and `d2i_X509_CRL` is invoked with length `SIZE_MAX`
(an out-of-bounds read) instead of returning the ParseError the claim
requires. -/
theorem b64_failure_wraps_to_d2i :
    base64_to_bin ((data9.set 28 0).drop 24) 29 = .err ∧
    download_crl ctx9 "u" = (.ub, [.fetch "u", .d2iCall U64MAX]) ∧
    U64MAX = 2 ^ 64 - 1 := by decide

/-- Counterexample for C10: the first four-character group `====` of
`"====AAAA"` contains `=`, so by the claim decoding should stop there
after one byte; the code emits three bytes (the cumulative pad count 4
matches neither 2 nor 1) and keeps decoding `AAAA`, returning 6 bytes. -/
theorem c10_counterexample :
    base64_to_bin [61, 61, 61, 61, 65, 65, 65, 65, 0] 10 =
      .ok [0, 0, 0, 0, 0, 0] := by decide

/-- C10 as amended: the pad count accumulates and is never reset, and a
completed group stops the decoder exactly when the CUMULATIVE pad count
equals 2 (one byte emitted) or 1 (two bytes emitted); with any other
cumulative count — including 3 or 4 from `=` signs — three bytes are
emitted and decoding continues with the accumulated count, so input
after a `=`-containing group is not necessarily ignored. -/
theorem pad_group_step (ch v : Nat) (isp : Bool) (rs : List Nat)
    (slen s2 v0 v1 v2 pad pad2 len cap : Nat) (out : List Nat)
    (hch : sextetOf ch = some (v, isp))
    (hs2 : s2 = if slen = 0 then U64MAX else slen - 1)
    (hpad2 : pad2 = if isp then pad + 1 else pad)
    (hcap : len + 3 ≤ cap) :
    pad ≤ pad2 ∧
    (pad2 = 2 → b64go (ch :: rs) slen 3 [v0, v1, v2] pad len cap out =
      .ok (out ++ [(v0 * 4 + v1 / 16) % 256])) ∧
    (pad2 = 1 → b64go (ch :: rs) slen 3 [v0, v1, v2] pad len cap out =
      .ok (out ++ [(v0 * 4 + v1 / 16) % 256, (v1 * 16 + v2 / 4) % 256])) ∧
    (pad2 ≠ 1 → pad2 ≠ 2 → 3 < s2 →
      b64go (ch :: rs) slen 3 [v0, v1, v2] pad len cap out =
        b64go rs s2 0 [] pad2 (len + 3) cap
          (out ++ [(v0 * 4 + v1 / 16) % 256, (v1 * 16 + v2 / 4) % 256,
            (v2 * 64 + v) % 256])) ∧
    (pad2 ≠ 1 → pad2 ≠ 2 → s2 ≤ 3 →
      b64go (ch :: rs) slen 3 [v0, v1, v2] pad len cap out =
        .ok (out ++ [(v0 * 4 + v1 / 16) % 256, (v1 * 16 + v2 / 4) % 256,
          (v2 * 64 + v) % 256])) := by
  have hb : b64go (ch :: rs) slen 3 [v0, v1, v2] pad len cap out =
      if cap < len + 1 then .err
      else if pad2 = 2 then .ok (out ++ [(v0 * 4 + v1 / 16) % 256])
      else if cap < len + 2 then .err
      else if pad2 = 1 then
        .ok (out ++ [(v0 * 4 + v1 / 16) % 256, (v1 * 16 + v2 / 4) % 256])
      else if cap < len + 3 then .err
      else if s2 ≤ 3 then
        .ok (out ++ [(v0 * 4 + v1 / 16) % 256, (v1 * 16 + v2 / 4) % 256,
          (v2 * 64 + v) % 256])
      else b64go rs s2 0 [] pad2 (len + 3) cap
        (out ++ [(v0 * 4 + v1 / 16) % 256, (v1 * 16 + v2 / 4) % 256,
          (v2 * 64 + v) % 256]) := by
    subst hs2 hpad2
    simp [b64go, hch, List.append_assoc]
  refine ⟨?_, ?_, ?_, ?_, ?_⟩
  · subst hpad2
    cases isp <;> simp
  · intro hp2
    rw [hb, if_neg (by omega), if_pos hp2]
  · intro hp1
    rw [hb, if_neg (by omega), if_neg (by omega), if_neg (by omega), if_pos hp1]
  · intro hp1 hp2 hs
    rw [hb, if_neg (by omega), if_neg hp2, if_neg (by omega), if_neg hp1,
      if_neg (by omega), if_neg (by omega)]
  · intro hp1 hp2 hs
    rw [hb, if_neg (by omega), if_neg hp2, if_neg (by omega), if_neg hp1,
      if_neg (by omega), if_pos hs]

/-- Witness for `pad_group_step`: a group completed by `=` while the
cumulative pad count reaches 2 emits one byte and stops. -/
theorem pad_group_step_witness :
    b64go [61] 9 3 [0, 0, 0] 1 0 10 [] = .ok [0] := by
  simpa using
    (pad_group_step 61 0 true [] 9 8 0 0 0 1 2 0 10 []
      (by decide) (by decide) (by decide) (by decide)).2.1 rfl

/-- Counterexample for C7: in `dataRev` the END marker (position 0)
precedes the BEGIN marker (position 22) — reversed order — yet the
fetcher does not reject the buffer: it hands the whole buffer to the
DER parser, and with a parser that accepts it the result is a parsed
CRL, not a ParseError. -/
theorem c7_counterexample :
    scanIdx dataRev ENDm (dataRev.length - 22) = 0 ∧
    scanIdx dataRev BEGINm (dataRev.length - 24) = 22 ∧
    download_crl ctxRev "u" = (.ok crl0, [.fetch "u", .d2iCall 46]) ∧
    DLRes.ok crl0 ≠ DLRes.fail := by decide

/-- C7 as amended, covering every fetched buffer: when the buffer is at
least 24 bytes long and both markers are found with BEGIN before END,
the enclosed text is base64-decoded and the decoded bytes are DER
parsed; when the buffer is at least 24 bytes long but the markers are
absent, single, or in reversed order, the whole buffer is handed
directly to the DER parser (so a reversed-marker buffer is rejected
with ParseError exactly when that DER parse fails); and when the buffer
is shorter than the 24-byte BEGIN marker, the unsigned scan bound
`data_len - 24` wraps and the marker scan itself reads out of bounds,
so no framing decision is reached at all. -/
theorem framing_detection (c : Ctx) (uri : String) (data : List Nat)
    (hf : c.fetch uri = some data) :
    (data.length < 24 → (download_crl c uri).1 = DLRes.ub) ∧
    (24 ≤ data.length → ∀ out,
      scanIdx data BEGINm (data.length - 24) ≤ data.length - 24 →
      scanIdx data ENDm (data.length - 22) ≤ data.length - 22 →
      scanIdx data BEGINm (data.length - 24) < scanIdx data ENDm (data.length - 22) →
      base64_to_bin
          ((data.set (scanIdx data ENDm (data.length - 22)) 0).drop
            (scanIdx data BEGINm (data.length - 24) + 24))
          (scanIdx data ENDm (data.length - 22) -
            scanIdx data BEGINm (data.length - 24) + 1) = .ok out →
      out.length ≠ 0 →
      (download_crl c uri).1 = (match c.d2i out out.length with
        | some crl => DLRes.ok crl
        | none => DLRes.fail)) ∧
    (24 ≤ data.length →
      ¬(scanIdx data BEGINm (data.length - 24) ≤ data.length - 24 ∧
        scanIdx data ENDm (data.length - 22) ≤ data.length - 22 ∧
        scanIdx data BEGINm (data.length - 24) < scanIdx data ENDm (data.length - 22)) →
      (download_crl c uri).1 = (match c.d2i data data.length with
        | some crl => DLRes.ok crl
        | none => DLRes.fail)) := by
  refine ⟨?_, ?_, ?_⟩
  · intro hn
    simp only [download_crl, hf]
    rw [if_pos hn]
  · intro hn out h1 h2 h3 hb h0
    simp only [download_crl, hf]
    rw [if_neg (by omega), if_pos ⟨h1, h2, h3⟩, hb]
    simp only [if_neg h0]
    cases c.d2i out out.length <;> simp
  · intro hn hc
    simp only [download_crl, hf]
    rw [if_neg (by omega), if_neg hc]
    cases c.d2i data data.length <;> simp

/-- Witness for `framing_detection`: a marker-free 24-byte buffer goes
straight to the DER parser (failing with a rejecting parser), and a
1-byte buffer makes the marker scan read out of bounds. -/
theorem framing_detection_witness :
    (download_crl ctxNoMark "u").1 = DLRes.fail ∧
    (download_crl ctxShort "u").1 = DLRes.ub := by
  constructor
  · have h := (framing_detection ctxNoMark "u" (List.replicate 24 0) rfl).2.2
      (by decide) (by decide)
    simpa [ctxNoMark, ctx0] using h
  · exact (framing_detection ctxShort "u" [48] rfl).1 (by decide)
